import Mathlib

/-
Shallow embedding of the render-and-merge orchestration pipeline of
`modal_manim.py` (the Modal deployment wrapper of the claiss repository).

Modelling conventions:

* Result dictionaries are modelled by the structure `ResultDict` whose fields
  are `Option`s: a field equal to `none` models a key absent from the Python
  dict.  The `duration` key (wall-clock elapsed seconds, a float read from the
  clock) is present in every returned dict and carries no other information;
  it is abstracted away.
* The external world (the renderer / FFmpeg subprocess, the scratch workspace
  contents after the subprocess ran, downloaded bytes, and any exception
  raised by an effectful step inside the `try` body) is an explicit
  environment argument (`RenderEnv` / `MergeEnv`).  The `exc` field models an
  exception raised by some step of the `try` body: `some m` means a step
  raised an exception whose `str(e)` is `m`, which the `except Exception`
  handler receives.
* Effects the code performs are collected in an explicit trace
  (`RenderTrace` / `MergeTrace`): the argv of each spawned subprocess, the
  URLs downloaded (in order), and the lines written to the concat manifest
  file (each line is written followed by a newline).
* Bytes are `List Nat` (each element a byte value < 256); floats interpolated
  into command strings (the transition duration) are modelled by their
  textual form.
-/

namespace Claiss

/-- Byte strings: each element is one byte value. -/
abbrev Bytes := List Nat

/-- Outcome of `subprocess.run(..., timeout=240)`: either the process
completed with a return code and captured streams, or `TimeoutExpired`
was raised. -/
inductive SubprocRes where
  | completed (returncode : Int) (stdout stderr : String)
  | timedOut
deriving DecidableEq

/-- A Python result dict as returned by the pipeline functions and the web
endpoints.  `none` models an absent key. -/
structure ResultDict where
  success : Bool
  video_bytes : Option Bytes := none
  error : Option String := none
  logs : Option String := none
  scene_count : Option Nat := none
  video_bytes_base64 : Option String := none
deriving DecidableEq

/-- External-world environment of one render invocation. -/
structure RenderEnv where
  /-- the scratch `tempfile.TemporaryDirectory()` path -/
  tempDir : String
  /-- When `some m`, a step inside the `try` body raised an exception with
  message `m` (caught by `except Exception as e`) -/
  exc : Option String := none
  /-- what the renderer subprocess does when invoked -/
  subproc : SubprocRes
  /-- workspace contents after the subprocess ran: full path and bytes of
  every entry `temp_path.rglob("*")` would report -/
  files : List (String × Bytes) := []

/-- Effect trace of one render invocation. -/
structure RenderTrace where
  /-- argv of each subprocess spawned, in order -/
  subprocCmds : List (List String) := []
deriving DecidableEq

/-- Last path component of a path string (what `pathlib` glob patterns
`**/name` match against). -/
def baseName (p : String) : String :=
  String.mk (p.data.foldl (fun acc c => if c = '/' then [] else acc ++ [c]) [])

/-- Model of `temp_path.glob` with pattern `**/` ++ `base`: the workspace entries whose final
component is `base`, in directory-traversal (list) order. -/
def globBase (files : List (String × Bytes)) (base : String) : List (String × Bytes) :=
  files.filter (fun f => baseName f.1 = base)

/-- Python `sep.join(l)`. -/
def joinStrings (sep : String) : List String → String
  | [] => ""
  | [s] => s
  | s :: t :: r => s ++ sep ++ joinStrings sep (t :: r)

/-- Quality-flag computation of `compile_manim_animation` (lines 93-100):
first a flag built from the minus sign, the letter q and the first character
of `quality`, then the three-way override.  Indexing the first character of
an empty `quality` raises `IndexError`, modelled by `none`. -/
def batchQualityFlag (quality : String) : Option String :=
  match quality.data with
  | [] => none
  | c :: _ =>
    some (if quality = "low_quality" then "-ql"
      else if quality = "medium_quality" then "-qm"
      else if quality = "high_quality" then "-qh"
      else String.push "-q" c)

/-- Quality-flag computation of `compile_manim_animation_inline`
(lines 254-259): default `"-ql"`, overridden only for the two exact
strings `"medium_quality"` and `"high_quality"`. -/
def inlineQualityFlag (quality : String) : String :=
  if quality = "medium_quality" then "-qm"
  else if quality = "high_quality" then "-qh"
  else "-ql"

/-- The `except Exception` result dict of `compile_manim_animation`
(lines 181-187). -/
def batchExcResult (m : String) : ResultDict :=
  { success := false
    error := some ("Unexpected error: " ++ m)
    logs := some ("Exception occurred: " ++ m) }

/-- The renderer argv built at lines 103-111 (both render functions build
the same command, differing only in the quality flag). -/
def manimCmd (tempDir class_name qualityFlag : String) : List String :=
  ["manim", tempDir ++ "/animation.py", class_name, qualityFlag,
   "--disable_caching", "--output_file", "output", "--media_dir", tempDir]

/-- Embedding of `compile_manim_animation` (lines 54-187): the batch render pipeline.
Returns the result dict and the effect trace. -/
def compile_manim_animation (python_code class_name quality : String)
    (env : RenderEnv) : ResultDict × RenderTrace :=
  match env.exc with
  | some m => (batchExcResult m, {})
  | none =>
    match batchQualityFlag quality with
    | none =>
      -- indexing the empty quality string raised IndexError, caught by
      -- the catch-all handler
      (batchExcResult "string index out of range", {})
    | some qflag =>
      let cmd := manimCmd env.tempDir class_name qflag
      let tr : RenderTrace := { subprocCmds := [cmd] }
      match env.subproc with
      | .timedOut =>
        ({ success := false
           error := some "Compilation timed out"
           logs := some "Manim compilation exceeded timeout limit" }, tr)
      | .completed rc out err =>
        if rc ≠ 0 then
          ({ success := false
             error := some ("Manim compilation failed: " ++ err)
             logs := some (out ++ err) }, tr)
        else
          let found := globBase env.files "output.mp4"
          let found := if found.isEmpty then
              globBase env.files (class_name ++ ".mp4") else found
          match found with
          | [] =>
            let fileList := joinStrings "\n" (env.files.map (·.1))
            ({ success := false
               error := some ("Video file not found. Files created:\n" ++ fileList)
               logs := some (out ++ err) }, tr)
          | vf :: _ =>
            ({ success := true
               video_bytes := some vf.2
               logs := some out }, tr)

/-- Embedding of `compile_manim_animation_inline` (lines 229-335): the inline render
pipeline used by the compile web endpoint.  Differs from the batch one in
the quality-flag computation, the artifact-not-found error message, and the
`except Exception` dict (lines 330-335: no `logs` key). -/
def compile_manim_animation_inline (python_code class_name quality : String)
    (env : RenderEnv) : ResultDict × RenderTrace :=
  match env.exc with
  | some m =>
    ({ success := false, error := some ("Inline compilation error: " ++ m) }, {})
  | none =>
    let cmd := manimCmd env.tempDir class_name (inlineQualityFlag quality)
    let tr : RenderTrace := { subprocCmds := [cmd] }
    match env.subproc with
    | .timedOut =>
      ({ success := false
         error := some "Compilation timed out"
         logs := some "Manim compilation exceeded timeout limit" }, tr)
    | .completed rc out err =>
      if rc ≠ 0 then
        ({ success := false
           error := some ("Manim compilation failed: " ++ err)
           logs := some (out ++ err) }, tr)
      else
        let found := globBase env.files "output.mp4"
        let found := if found.isEmpty then
            globBase env.files (class_name ++ ".mp4") else found
        match found with
        | [] =>
          ({ success := false
             error := some "Video file not found after compilation"
             logs := some (out ++ err) }, tr)
        | vf :: _ =>
          ({ success := true
             video_bytes := some vf.2
             logs := some out }, tr)

/-- External-world environment of one merge invocation. -/
structure MergeEnv where
  /-- the scratch `tempfile.TemporaryDirectory()` path -/
  tempDir : String
  /-- When `some m`, a step inside the `try` body raised an exception with
  message `m` -/
  exc : Option String := none
  /-- bytes `urllib.request.urlopen(url).read()` yields for each url -/
  download : String → Bytes
  /-- what the FFmpeg subprocess does when invoked -/
  subproc : SubprocRes
  /-- whether `merged.mp4` exists after the subprocess returned -/
  outputExists : Bool := true
  /-- its contents when it does -/
  outputBytes : Bytes := []

/-- Effect trace of one merge invocation. -/
structure MergeTrace where
  /-- URLs downloaded, in order -/
  downloads : List String := []
  /-- argv of each subprocess spawned, in order -/
  subprocCmds : List (List String) := []
  /-- lines written to `concat_list.txt` (each followed by a newline),
  when the fast-concat manifest was written -/
  manifest : Option (List String) := none
deriving DecidableEq

/-- The sequentially numbered local download targets
`temp_path / f"scene_{i}.mp4"` built by the download loop (lines 400-411). -/
def sceneFiles (tempDir : String) (n : Nat) : List String :=
  (List.range n).map (fun i => tempDir ++ "/scene_" ++ toString i ++ ".mp4")

/-- The crossfade `filter_complex` chain (lines 420-434): part `i` joins the
current stream with input `i+1`, at offset `i * 10`. -/
def xfadeFilterParts (n : Nat) (transition_duration : String) : List String :=
  (List.range (n - 1)).map (fun i =>
    let currentStream := if i = 0 then "[0:v]" else "[v" ++ toString (i - 1) ++ "]"
    let nextStream := "[" ++ toString (i + 1) ++ ":v]"
    let outputStream := if i = n - 2 then "[v]" else "[v" ++ toString i ++ "]"
    currentStream ++ nextStream ++ "xfade=transition=fade:duration=" ++
      transition_duration ++ ":offset=" ++ toString (i * 10) ++ outputStream)

/-- The crossfade command line (line 436), built as one string and later
`split()` (line 461). -/
def xfadeCmdString (tempDir : String) (videoFiles : List String)
    (transition_duration : String) : String :=
  "ffmpeg " ++ joinStrings " " (videoFiles.map (fun vf => "-i " ++ vf)) ++
    " -filter_complex \"" ++
    joinStrings ";" (xfadeFilterParts videoFiles.length transition_duration) ++
    "\" -map \"[v]\" -c:v libx264 -preset medium -crf 23 " ++
    (tempDir ++ "/merged.mp4")

/-- The fast-concat argv (lines 448-455). -/
def concatCmd (tempDir : String) : List String :=
  ["ffmpeg", "-f", "concat", "-safe", "0", "-i", tempDir ++ "/concat_list.txt",
   "-c", "copy", tempDir ++ "/merged.mp4"]

/-- One line of the concat manifest: `f"file '{video_file}'"` (line 446). -/
def manifestLine (videoFile : String) : String :=
  "file \x27" ++ videoFile ++ "\x27"

/-- Embedding of `merge_scene_videos` (lines 343-513): the merge pipeline.  Returns the
result dict and the effect trace. -/
def merge_scene_videos (video_urls : List String) (add_transitions : Bool)
    (transition_duration : String) (env : MergeEnv) : ResultDict × MergeTrace :=
  match env.exc with
  | some m =>
    ({ success := false, error := some ("Merge error: " ++ m) }, {})
  | none =>
    match video_urls with
    | [] =>
      ({ success := false, error := some "No videos provided to merge" }, {})
    | [url] =>
      ({ success := true
         video_bytes := some (env.download url)
         scene_count := some 1 }, { downloads := [url] })
    | _ :: _ :: _ =>
      let videoFiles := sceneFiles env.tempDir video_urls.length
      let (cmd, manifest) :=
        if add_transitions then
          (((xfadeCmdString env.tempDir videoFiles transition_duration).splitOn
              " ").filter (fun s => s ≠ ""), (none : Option (List String)))
        else
          (concatCmd env.tempDir, some (videoFiles.map manifestLine))
      let tr : MergeTrace :=
        { downloads := video_urls, subprocCmds := [cmd], manifest := manifest }
      match env.subproc with
      | .timedOut =>
        ({ success := false, error := some "FFmpeg merge timed out" }, tr)
      | .completed rc out err =>
        if rc ≠ 0 then
          ({ success := false
             error := some ("FFmpeg merge failed: " ++ err)
             logs := some (out ++ err) }, tr)
        else if ¬ env.outputExists then
          ({ success := false
             error := some "Merged video file not created"
             logs := some out }, tr)
        else
          ({ success := true
             video_bytes := some env.outputBytes
             scene_count := some video_urls.length }, tr)

/-- Code (ASCII value) of base64-alphabet character number `n` (0-63):
`A`-`Z`, `a`-`z`, `0`-`9`, `+`, `/`. -/
def b64CharCode (n : Nat) : Nat :=
  if n < 26 then 65 + n
  else if n < 52 then 97 + (n - 26)
  else if n < 62 then 48 + (n - 52)
  else if n = 62 then 43
  else 47

/-- Value of a base64-alphabet character code; `none` for a character
outside the alphabet. -/
def b64CodeVal (c : Nat) : Option Nat :=
  if 65 ≤ c ∧ c ≤ 90 then some (c - 65)
  else if 97 ≤ c ∧ c ≤ 122 then some (c - 97 + 26)
  else if 48 ≤ c ∧ c ≤ 57 then some (c - 48 + 52)
  else if c = 43 then some 62
  else if c = 47 then some 63
  else none

/-- Standard base64 encoding (`base64.b64encode`) of a byte string, as the
list of ASCII codes of the output; 61 is the code of the `=` pad. -/
def b64encodeCodes : Bytes → List Nat
  | [] => []
  | [a] =>
    [b64CharCode (a / 4), b64CharCode (a % 4 * 16), 61, 61]
  | [a, b] =>
    [b64CharCode (a / 4), b64CharCode (a % 4 * 16 + b / 16),
     b64CharCode (b % 16 * 4), 61]
  | a :: b :: c :: rest =>
    b64CharCode (a / 4) :: b64CharCode (a % 4 * 16 + b / 16) ::
      b64CharCode (b % 16 * 4 + c / 64) :: b64CharCode (c % 64) ::
      b64encodeCodes rest

/-- Standard base64 decoding (`base64.b64decode`) from a list of ASCII
codes; `none` on malformed input. -/
def b64decodeCodes : List Nat → Option Bytes
  | c1 :: c2 :: c3 :: c4 :: rest =>
    if c3 = 61 ∧ c4 = 61 ∧ rest = [] then
      match b64CodeVal c1, b64CodeVal c2 with
      | some s1, some s2 => some [s1 * 4 + s2 / 16]
      | _, _ => none
    else if c4 = 61 ∧ rest = [] then
      match b64CodeVal c1, b64CodeVal c2, b64CodeVal c3 with
      | some s1, some s2, some s3 =>
        some [s1 * 4 + s2 / 16, s2 % 16 * 16 + s3 / 4]
      | _, _, _ => none
    else
      match b64CodeVal c1, b64CodeVal c2, b64CodeVal c3, b64CodeVal c4,
          b64decodeCodes rest with
      | some s1, some s2, some s3, some s4, some tail =>
        some ((s1 * 4 + s2 / 16) :: (s2 % 16 * 16 + s3 / 4) ::
          (s3 % 4 * 64 + s4) :: tail)
      | _, _, _, _, _ => none
  | [] => some []
  | _ => none

/-- Model of `base64.b64encode` followed by utf-8 decoding: the base64 string of a byte
string. -/
def b64encode (bs : Bytes) : String :=
  String.mk ((b64encodeCodes bs).map Char.ofNat)

/-- Model of `base64.b64decode`: the bytes a base64 string decodes to. -/
def b64decode (s : String) : Option Bytes :=
  b64decodeCodes (s.data.map Char.toNat)

/-- The web adaptation applied by both endpoints (lines 551-555 and
604-609): when the result is successful and its `video_bytes` value is
truthy (present and non-empty), add `video_bytes_base64` and delete
`video_bytes`; otherwise leave the dict unchanged. -/
def webAdapt (r : ResultDict) : ResultDict :=
  if r.success then
    match r.video_bytes with
    | some bs =>
      if bs.isEmpty then r
      else { r with video_bytes := none
                    video_bytes_base64 := some (b64encode bs) }
    | none => r
  else r

/-- Embedding of `compile_manim_web_endpoint` (lines 521-563).  The request dict is
modelled by its three typed fields (`none` models an absent key, defaults
as in the `request_data.get` calls); `webExc` models an exception raised in
the endpoint body itself, caught by the endpoint's own handler. -/
def compile_manim_web_endpoint (python_code class_name quality : Option String)
    (env : RenderEnv) (webExc : Option String) : ResultDict :=
  match webExc with
  | some m =>
    { success := false, error := some ("Web endpoint error: " ++ m) }
  | none =>
    let code := python_code.getD ""
    let cls := class_name.getD "Scene"
    let q := quality.getD "low_quality"
    if code = "" then
      { success := false, error := some "python_code is required" }
    else
      webAdapt (compile_manim_animation_inline code cls q env).1

/-- Embedding of `merge_videos_web_endpoint` (lines 571-617).  A non-list `video_urls`
value is not representable in the typed model; the emptiness half of the
`not video_urls or not isinstance(video_urls, list)` check is modelled. -/
def merge_videos_web_endpoint (video_urls : Option (List String))
    (add_transitions : Option Bool) (transition_duration : Option String)
    (env : MergeEnv) (webExc : Option String) : ResultDict :=
  match webExc with
  | some m =>
    { success := false, error := some ("Merge endpoint error: " ++ m) }
  | none =>
    let urls := video_urls.getD []
    if urls.isEmpty then
      { success := false, error := some "video_urls array is required" }
    else
      webAdapt (merge_scene_videos urls (add_transitions.getD false)
        (transition_duration.getD "0.5") env).1

/-! ### Substring containment on character lists -/

/-- Whether `needle` occurs at the start of `hay`. -/
def startsWith : List Char → List Char → Bool
  | [], _ => true
  | _ :: _, [] => false
  | a :: as, b :: bs => a == b && startsWith as bs

/-- Whether `needle` occurs contiguously somewhere inside `hay`. -/
def occursIn : List Char → List Char → Bool
  | needle, [] => startsWith needle []
  | needle, c :: t => startsWith needle (c :: t) || occursIn needle t

theorem startsWith_append : ∀ (n r : List Char), startsWith n (n ++ r) = true
  | [], _ => rfl
  | a :: as, r => by simp [startsWith, startsWith_append as r]

theorem startsWith_refl (n : List Char) : startsWith n n = true := by
  simpa using startsWith_append n []

theorem occursIn_of_startsWith {n h : List Char} (hs : startsWith n h = true) :
    occursIn n h = true := by
  cases h with
  | nil => simpa [occursIn] using hs
  | cons c t => simp [occursIn, hs]

theorem occursIn_append_left (n : List Char) :
    ∀ (pre h : List Char), occursIn n h = true → occursIn n (pre ++ h) = true
  | [], _, ho => ho
  | c :: p, h, ho => by
    simp only [List.cons_append, occursIn, Bool.or_eq_true]
    exact Or.inr (occursIn_append_left n p h ho)

theorem occursIn_join (sep : String) :
    ∀ (l : List String) (a : String), a ∈ l →
      occursIn a.data (joinStrings sep l).data = true
  | [], a, h => absurd h (List.not_mem_nil a)
  | [x], a, h => by
    have hax : a = x := by simpa using h
    subst hax
    exact occursIn_of_startsWith (startsWith_refl a.data)
  | x :: y :: t, a, h => by
    rcases List.mem_cons.mp h with hax | hmem
    · subst hax
      show occursIn a.data (a ++ sep ++ joinStrings sep (y :: t)).data = true
      rw [String.data_append, String.data_append, List.append_assoc]
      exact occursIn_of_startsWith (startsWith_append a.data _)
    · have ih := occursIn_join sep (y :: t) a hmem
      show occursIn a.data (x ++ sep ++ joinStrings sep (y :: t)).data = true
      rw [String.data_append, String.data_append]
      exact occursIn_append_left a.data _ _ ih

/-! ### Base64 facts -/

theorem b64CharCode_lt_128 (n : Nat) : b64CharCode n < 128 := by
  by_cases h1 : n < 26 <;> by_cases h2 : n < 52 <;> by_cases h3 : n < 62 <;>
    by_cases h4 : n = 62 <;> simp [b64CharCode, h1, h2, h3, h4] <;> omega

theorem b64CharCode_ne_61 (n : Nat) : b64CharCode n ≠ 61 := by
  by_cases h1 : n < 26 <;> by_cases h2 : n < 52 <;> by_cases h3 : n < 62 <;>
    by_cases h4 : n = 62 <;> simp [b64CharCode, h1, h2, h3, h4] <;> omega

theorem b64CodeVal_charCode : ∀ s, s < 64 → b64CodeVal (b64CharCode s) = some s := by
  decide

theorem char_toNat_ofNat : ∀ m, m < 128 → (Char.ofNat m).toNat = m := by
  decide

theorem b64encodeCodes_lt_128 :
    ∀ (bs : Bytes), ∀ x ∈ b64encodeCodes bs, x < 128
  | [], x, hx => absurd hx (by simp [b64encodeCodes])
  | [a], x, hx => by
    simp only [b64encodeCodes, List.mem_cons, List.not_mem_nil, or_false] at hx
    rcases hx with h | h | h | h <;> subst h <;>
      first | exact b64CharCode_lt_128 _ | omega
  | [a, b], x, hx => by
    simp only [b64encodeCodes, List.mem_cons, List.not_mem_nil, or_false] at hx
    rcases hx with h | h | h | h <;> subst h <;>
      first | exact b64CharCode_lt_128 _ | omega
  | a :: b :: c :: rest, x, hx => by
    simp only [b64encodeCodes, List.mem_cons] at hx
    rcases hx with h | h | h | h | h
    · subst h; exact b64CharCode_lt_128 _
    · subst h; exact b64CharCode_lt_128 _
    · subst h; exact b64CharCode_lt_128 _
    · subst h; exact b64CharCode_lt_128 _
    · exact b64encodeCodes_lt_128 rest x h

theorem b64_roundTripCodes :
    ∀ (bs : Bytes), (∀ b ∈ bs, b < 256) →
      b64decodeCodes (b64encodeCodes bs) = some bs
  | [], _ => rfl
  | [a], h => by
    have ha : a < 256 := h a (by simp)
    simp only [b64encodeCodes, b64decodeCodes]
    rw [if_pos (by simp)]
    rw [b64CodeVal_charCode (a / 4) (by omega),
        b64CodeVal_charCode (a % 4 * 16) (by omega)]
    show some [a / 4 * 4 + a % 4 * 16 / 16] = some [a]
    have e1 : a / 4 * 4 + a % 4 * 16 / 16 = a := by omega
    rw [e1]
  | [a, b], h => by
    have ha : a < 256 := h a (by simp)
    have hb : b < 256 := h b (by simp)
    simp only [b64encodeCodes, b64decodeCodes]
    rw [if_neg (by simp [b64CharCode_ne_61])]
    rw [if_pos (by simp)]
    rw [b64CodeVal_charCode (a / 4) (by omega),
        b64CodeVal_charCode (a % 4 * 16 + b / 16) (by omega),
        b64CodeVal_charCode (b % 16 * 4) (by omega)]
    show some [a / 4 * 4 + (a % 4 * 16 + b / 16) / 16,
      (a % 4 * 16 + b / 16) % 16 * 16 + b % 16 * 4 / 4] = some [a, b]
    have e1 : a / 4 * 4 + (a % 4 * 16 + b / 16) / 16 = a := by omega
    have e2 : (a % 4 * 16 + b / 16) % 16 * 16 + b % 16 * 4 / 4 = b := by omega
    rw [e1, e2]
  | a :: b :: c :: rest, h => by
    have ha : a < 256 := h a (by simp)
    have hb : b < 256 := h b (by simp)
    have hc : c < 256 := h c (by simp)
    have ih := b64_roundTripCodes rest (fun x hx => h x (by simp [hx]))
    simp only [b64encodeCodes, b64decodeCodes]
    rw [if_neg (by simp [b64CharCode_ne_61])]
    rw [if_neg (by simp [b64CharCode_ne_61])]
    rw [b64CodeVal_charCode (a / 4) (by omega),
        b64CodeVal_charCode (a % 4 * 16 + b / 16) (by omega),
        b64CodeVal_charCode (b % 16 * 4 + c / 64) (by omega),
        b64CodeVal_charCode (c % 64) (by omega), ih]
    show some ((a / 4 * 4 + (a % 4 * 16 + b / 16) / 16) ::
      ((a % 4 * 16 + b / 16) % 16 * 16 + (b % 16 * 4 + c / 64) / 4) ::
      ((b % 16 * 4 + c / 64) % 4 * 64 + c % 64) :: rest) = some (a :: b :: c :: rest)
    have e1 : a / 4 * 4 + (a % 4 * 16 + b / 16) / 16 = a := by omega
    have e2 : (a % 4 * 16 + b / 16) % 16 * 16 + (b % 16 * 4 + c / 64) / 4 = b := by
      omega
    have e3 : (b % 16 * 4 + c / 64) % 4 * 64 + c % 64 = c := by omega
    rw [e1, e2, e3]

theorem b64_roundTrip (bs : Bytes) (h : ∀ b ∈ bs, b < 256) :
    b64decode (b64encode bs) = some bs := by
  unfold b64decode b64encode
  have hdata : (String.mk ((b64encodeCodes bs).map Char.ofNat)).data
      = (b64encodeCodes bs).map Char.ofNat := rfl
  rw [hdata, List.map_map]
  have hmap : (b64encodeCodes bs).map (Char.toNat ∘ Char.ofNat)
      = b64encodeCodes bs := by
    refine List.map_congr_left (fun x hx => ?_) |>.trans (List.map_id _)
    exact char_toNat_ofNat x (b64encodeCodes_lt_128 bs x hx)
  rw [hmap]
  exact b64_roundTripCodes bs h

/-! ### Small facts about the embedded operations -/

theorem string_eq_empty_of_data_nil {q : String} (hd : q.data = []) : q = "" := by
  cases q
  simp only [String.data] at hd
  simp [hd]

theorem timeoutMsg_ne_failMsg (s : String) :
    "Compilation timed out" ≠ "Manim compilation failed: " ++ s := by
  intro h
  have hd := congrArg String.data h
  rw [String.data_append] at hd
  have hp : startsWith "Manim compilation failed: ".data
      "Compilation timed out".data = true := by
    rw [hd]; exact startsWith_append _ _
  exact absurd hp (by decide)

theorem mergeTimeoutMsg_ne_failMsg (s : String) :
    "FFmpeg merge timed out" ≠ "FFmpeg merge failed: " ++ s := by
  intro h
  have hd := congrArg String.data h
  rw [String.data_append] at hd
  have hp : startsWith "FFmpeg merge failed: ".data
      "FFmpeg merge timed out".data = true := by
    rw [hd]; exact startsWith_append _ _
  exact absurd hp (by decide)

theorem failMsg_ne_empty (err : String) :
    ("Manim compilation failed: " ++ err) ≠ "" := by
  intro h
  have hd := congrArg String.data h
  rw [String.data_append] at hd
  have h1 : "Manim compilation failed: ".data = [] :=
    (List.append_eq_nil.mp hd).1
  exact absurd h1 (by decide)

/-! ### Claim theorems -/

/-- Claim C4: for a MergeRequest with exactly one artifact location the
result is a success carrying exactly the downloaded bytes of that location,
with `scene_count = 1`, and the trace shows no subprocess invocation (and no
manifest). -/
theorem C4_single_video_fast_path (url : String) (b : Bool) (td : String)
    (env : MergeEnv) (h : env.exc = none) :
    merge_scene_videos [url] b td env =
      ({ success := true, video_bytes := some (env.download url),
         scene_count := some 1 },
       { downloads := [url], subprocCmds := [], manifest := none }) := by
  simp [merge_scene_videos, h]

/-- Witness for C4 at a concrete input. -/
theorem C4_single_video_fast_path_witness :
    merge_scene_videos ["http://h/a.mp4"] false "0.5"
      { tempDir := "/tmp/m", exc := none, download := fun _ => [7, 8, 9],
        subproc := .completed 0 "" "" } =
      ({ success := true, video_bytes := some [7, 8, 9], scene_count := some 1 },
       { downloads := ["http://h/a.mp4"], subprocCmds := [], manifest := none }) :=
  C4_single_video_fast_path "http://h/a.mp4" false "0.5" _ rfl

/-- Claim C5: for a MergeRequest with zero artifact locations the merge
pipeline fails before any network download or subprocess activity: the
result is a failure and the trace records no download and no subprocess. -/
theorem C5_empty_merge_fails_early (b : Bool) (td : String) (env : MergeEnv) :
    (merge_scene_videos [] b td env).1.success = false ∧
    (merge_scene_videos [] b td env).2.downloads = [] ∧
    (merge_scene_videos [] b td env).2.subprocCmds = [] := by
  cases h : env.exc <;> simp [merge_scene_videos, h]

/-- Claim C6: for N ≥ 2 locations with `add_transitions = false`, the merge
subprocess is invoked exactly once, the downloads follow the input order,
and the manifest lists exactly N entries, entry i naming local file
`scene_i`. -/
theorem C6_fast_concat_manifest (urls : List String) (td : String)
    (env : MergeEnv) (hexc : env.exc = none) (hlen : 2 ≤ urls.length) :
    (merge_scene_videos urls false td env).2.subprocCmds.length = 1 ∧
    (merge_scene_videos urls false td env).2.downloads = urls ∧
    ∃ lines, (merge_scene_videos urls false td env).2.manifest = some lines ∧
      lines.length = urls.length ∧
      ∀ i (hi : i < lines.length),
        lines[i] = manifestLine (env.tempDir ++ "/scene_" ++ toString i ++ ".mp4") := by
  match urls with
  | [] => simp at hlen
  | [_] => simp at hlen
  | u :: v :: rest =>
    cases hs : env.subproc with
    | timedOut =>
      refine ⟨?_, ?_, ?_⟩ <;>
        simp [merge_scene_videos, hexc, hs, sceneFiles, List.getElem_map]
    | completed rc out err =>
      by_cases hrc : rc = 0 <;> by_cases ho : env.outputExists <;>
        refine ⟨?_, ?_, ?_⟩ <;>
          simp [merge_scene_videos, hexc, hs, hrc, ho, sceneFiles, List.getElem_map]

/-- Witness for C6 at a concrete input. -/
theorem C6_fast_concat_manifest_witness :
    (merge_scene_videos ["http://h/a.mp4", "http://h/b.mp4"] false "0.5"
      { tempDir := "/tmp/m", exc := none, download := fun _ => [1],
        subproc := .completed 0 "" "" }).2.subprocCmds.length = 1 :=
  (C6_fast_concat_manifest ["http://h/a.mp4", "http://h/b.mp4"] "0.5" _ rfl
    (by decide)).1

/-- Claim C7: when the renderer subprocess exits non-zero, both render
pipelines return a failure whose error message is non-empty and contains the
captured stderr, with logs equal to stdout concatenated with stderr. -/
theorem C7_nonzero_exit_failure :
    (∀ code cls q env (rc : Int) out err,
      env.exc = none → q ≠ "" → env.subproc = .completed rc out err → rc ≠ 0 →
      (compile_manim_animation code cls q env).1.success = false ∧
      (compile_manim_animation code cls q env).1.error =
        some ("Manim compilation failed: " ++ err) ∧
      ("Manim compilation failed: " ++ err) ≠ "" ∧
      occursIn err.data ("Manim compilation failed: " ++ err).data = true ∧
      (compile_manim_animation code cls q env).1.logs = some (out ++ err)) ∧
    (∀ code cls q env (rc : Int) out err,
      env.exc = none → env.subproc = .completed rc out err → rc ≠ 0 →
      (compile_manim_animation_inline code cls q env).1.success = false ∧
      (compile_manim_animation_inline code cls q env).1.error =
        some ("Manim compilation failed: " ++ err) ∧
      (compile_manim_animation_inline code cls q env).1.logs = some (out ++ err)) := by
  constructor
  · intro code cls q env rc out err hexc hq hs hrc
    obtain ⟨c, t, hd⟩ : ∃ c t, q.data = c :: t := by
      cases hdq : q.data with
      | nil => exact absurd (string_eq_empty_of_data_nil hdq) hq
      | cons c t => exact ⟨c, t, rfl⟩
    have hflag : ∃ f, batchQualityFlag q = some f := by
      unfold batchQualityFlag
      rw [hd]
      exact ⟨_, rfl⟩
    obtain ⟨f, hf⟩ := hflag
    refine ⟨?_, ?_, failMsg_ne_empty err, ?_, ?_⟩ <;>
      first
      | · simp [compile_manim_animation, hexc, hf, hs, hrc]
      | · rw [String.data_append]
          exact occursIn_append_left _ _ _
            (occursIn_of_startsWith (startsWith_refl _))
  · intro code cls q env rc out err hexc hs hrc
    refine ⟨?_, ?_, ?_⟩ <;>
      simp [compile_manim_animation_inline, hexc, hs, hrc]

/-- Witness for C7 at a concrete input. -/
theorem C7_nonzero_exit_failure_witness :
    (compile_manim_animation "code" "Scene" "low_quality"
      { tempDir := "/tmp/t", exc := none,
        subproc := .completed 1 "OUT" "ERR" }).1.error =
      some ("Manim compilation failed: " ++ "ERR") :=
  (C7_nonzero_exit_failure.1 "code" "Scene" "low_quality" _ 1 "OUT" "ERR" rfl
    (by decide) rfl (by decide)).2.1

/-- Claim C9: a subprocess running past its wall-clock budget yields a
failure with a timeout-specific message, distinct from every ordinary
subprocess-failure message, and the trace shows the subprocess was invoked
exactly once (no internal retry). -/
theorem C9_timeout_distinct_no_retry :
    (∀ code cls q env, env.exc = none → q ≠ "" → env.subproc = .timedOut →
      (compile_manim_animation code cls q env).1.success = false ∧
      (compile_manim_animation code cls q env).1.error =
        some "Compilation timed out" ∧
      (∀ s, "Compilation timed out" ≠ "Manim compilation failed: " ++ s) ∧
      (compile_manim_animation code cls q env).2.subprocCmds.length = 1) ∧
    (∀ urls b td env, env.exc = none → 2 ≤ urls.length →
      env.subproc = .timedOut →
      (merge_scene_videos urls b td env).1.success = false ∧
      (merge_scene_videos urls b td env).1.error =
        some "FFmpeg merge timed out" ∧
      (∀ s, "FFmpeg merge timed out" ≠ "FFmpeg merge failed: " ++ s) ∧
      (merge_scene_videos urls b td env).2.subprocCmds.length = 1) := by
  constructor
  · intro code cls q env hexc hq hs
    obtain ⟨c, t, hd⟩ : ∃ c t, q.data = c :: t := by
      cases hdq : q.data with
      | nil => exact absurd (string_eq_empty_of_data_nil hdq) hq
      | cons c t => exact ⟨c, t, rfl⟩
    have hflag : ∃ f, batchQualityFlag q = some f := by
      unfold batchQualityFlag
      rw [hd]
      exact ⟨_, rfl⟩
    obtain ⟨f, hf⟩ := hflag
    refine ⟨?_, ?_, timeoutMsg_ne_failMsg, ?_⟩ <;>
      simp [compile_manim_animation, hexc, hf, hs]
  · intro urls b td env hexc hlen hs
    match urls with
    | [] => simp at hlen
    | [_] => simp at hlen
    | u :: v :: rest =>
      refine ⟨?_, ?_, mergeTimeoutMsg_ne_failMsg, ?_⟩ <;>
        simp [merge_scene_videos, hexc, hs]

/-- Witness for C9 at a concrete input. -/
theorem C9_timeout_distinct_no_retry_witness :
    (compile_manim_animation "code" "Scene" "low_quality"
      { tempDir := "/tmp/t", exc := none, subproc := .timedOut }).1.error =
      some "Compilation timed out" ∧
    (merge_scene_videos ["u1", "u2"] false "0.5"
      { tempDir := "/tmp/m", exc := none, download := fun _ => [],
        subproc := .timedOut }).1.error = some "FFmpeg merge timed out" :=
  ⟨(C9_timeout_distinct_no_retry.1 "code" "Scene" "low_quality" _ rfl
      (by decide) rfl).2.1,
   (C9_timeout_distinct_no_retry.2 ["u1", "u2"] false "0.5" _ rfl
      (by decide) rfl).2.1⟩

/-- Claim C10: the inline render pipeline silently maps every quality value
other than the exact strings `"medium_quality"` and `"high_quality"` to the
low-quality flag (the whole pipeline behaves as if `"low_quality"` had been
passed, rather than rejecting the request), while the batch render function
maps an unrecognized non-empty quality to a flag built from its first
character. -/
theorem C10_quality_mapping :
    (∀ q, q ≠ "medium_quality" → q ≠ "high_quality" →
      inlineQualityFlag q = "-ql") ∧
    (∀ code cls q env, q ≠ "medium_quality" → q ≠ "high_quality" →
      compile_manim_animation_inline code cls q env =
        compile_manim_animation_inline code cls "low_quality" env) ∧
    (∀ (q : String) (c : Char) (cs : List Char), q.data = c :: cs →
      q ≠ "low_quality" → q ≠ "medium_quality" → q ≠ "high_quality" →
      batchQualityFlag q = some (String.push "-q" c)) := by
  refine ⟨?_, ?_, ?_⟩
  · intro q h1 h2
    simp [inlineQualityFlag, h1, h2]
  · intro code cls q env h1 h2
    have hfl : inlineQualityFlag q = inlineQualityFlag "low_quality" := by
      simp [inlineQualityFlag, h1, h2]
    unfold compile_manim_animation_inline
    rw [hfl]
  · intro q c cs hd h1 h2 h3
    unfold batchQualityFlag
    rw [hd]
    simp [h1, h2, h3]

/-- Witness for C10 at concrete inputs. -/
theorem C10_quality_mapping_witness :
    inlineQualityFlag "medum_quality" = "-ql" ∧
    batchQualityFlag "medum_quality" = some (String.push "-q" 'm') :=
  ⟨C10_quality_mapping.1 "medum_quality" (by decide) (by decide),
   C10_quality_mapping.2.2 "medum_quality" 'm' "edum_quality".data rfl
     (by decide) (by decide) (by decide)⟩

/-- Claim C1: every exception raised during pipeline execution is caught and
converted into a result dict with a failure flag and an error message, for
both render pipelines and the merge pipeline; and both web endpoints return
such a failure dict (never propagate a crash) whenever an exception arises in
their own body or inside the pipeline they call. -/
theorem C1_exceptions_become_failure_results :
    (∀ code cls q env m, env.exc = some m →
      (compile_manim_animation code cls q env).1.success = false ∧
      (compile_manim_animation code cls q env).1.error.isSome = true) ∧
    (∀ code cls q env m, env.exc = some m →
      (compile_manim_animation_inline code cls q env).1.success = false ∧
      (compile_manim_animation_inline code cls q env).1.error.isSome = true) ∧
    (∀ urls b td env m, env.exc = some m →
      (merge_scene_videos urls b td env).1.success = false ∧
      (merge_scene_videos urls b td env).1.error.isSome = true) ∧
    (∀ pc cn q env wexc, wexc.isSome = true ∨ env.exc.isSome = true →
      (compile_manim_web_endpoint pc cn q env wexc).success = false ∧
      (compile_manim_web_endpoint pc cn q env wexc).error.isSome = true) ∧
    (∀ vu ats td env wexc, wexc.isSome = true ∨ env.exc.isSome = true →
      (merge_videos_web_endpoint vu ats td env wexc).success = false ∧
      (merge_videos_web_endpoint vu ats td env wexc).error.isSome = true) := by
  refine ⟨?_, ?_, ?_, ?_, ?_⟩
  · intro code cls q env m hm
    simp [compile_manim_animation, hm, batchExcResult]
  · intro code cls q env m hm
    simp [compile_manim_animation_inline, hm]
  · intro urls b td env m hm
    simp [merge_scene_videos, hm]
  · intro pc cn q env wexc h
    cases hw : wexc with
    | some m => simp [compile_manim_web_endpoint]
    | none =>
      rw [hw] at h
      rcases h with h | h
      · simp at h
      · cases henv : env.exc with
        | none => rw [henv] at h; simp at h
        | some m =>
          by_cases hc : pc.getD "" = "" <;>
            simp [compile_manim_web_endpoint, hc,
              compile_manim_animation_inline, henv, webAdapt]
  · intro vu ats td env wexc h
    cases hw : wexc with
    | some m => simp [merge_videos_web_endpoint]
    | none =>
      rw [hw] at h
      rcases h with h | h
      · simp at h
      · cases henv : env.exc with
        | none => rw [henv] at h; simp at h
        | some m =>
          by_cases hu : (vu.getD []).isEmpty = true <;>
            simp [merge_videos_web_endpoint, hu,
              merge_scene_videos, henv, webAdapt]

/-- Witness for C1 at concrete inputs. -/
theorem C1_exceptions_become_failure_results_witness :
    (compile_manim_animation "code" "Scene" "low_quality"
      { tempDir := "/tmp/t", exc := some "boom",
        subproc := .completed 0 "" "" }).1.success = false ∧
    (merge_videos_web_endpoint (some ["u"]) none none
      { tempDir := "/tmp/m", exc := some "boom", download := fun _ => [],
        subproc := .completed 0 "" "" } none).success = false :=
  ⟨(C1_exceptions_become_failure_results.1 "code" "Scene" "low_quality" _
      "boom" rfl).1,
   (C1_exceptions_become_failure_results.2.2.2.2 (some ["u"]) none none
      { tempDir := "/tmp/m", exc := some "boom", download := fun _ => [],
        subproc := .completed 0 "" "" }
      none (Or.inr rfl)).1⟩

/-- The success/failure exclusivity invariant of a result dict: a success
carries bytes and no error, a failure carries an error and no bytes. -/
def resultExclusive (r : ResultDict) : Prop :=
  (r.success = true → r.error = none ∧ ∃ bs, r.video_bytes = some bs) ∧
  (r.success = false → r.video_bytes = none ∧ ∃ e, r.error = some e)

/-- Claim C2: every result returned by the batch render pipeline, the inline
render pipeline, or the merge pipeline carries exactly one of `video_bytes`
and `error`, as dictated by the `success` flag. -/
theorem C2_exactly_one_of_bytes_or_error :
    (∀ code cls q env,
      resultExclusive (compile_manim_animation code cls q env).1) ∧
    (∀ code cls q env,
      resultExclusive (compile_manim_animation_inline code cls q env).1) ∧
    (∀ urls b td env,
      resultExclusive (merge_scene_videos urls b td env).1) := by
  refine ⟨?_, ?_, ?_⟩
  · intro code cls q env
    cases henv : env.exc with
    | some m => simp [compile_manim_animation, henv, batchExcResult,
        resultExclusive]
    | none =>
      cases hq : batchQualityFlag q with
      | none => simp [compile_manim_animation, henv, hq, batchExcResult,
          resultExclusive]
      | some f =>
        cases hs : env.subproc with
        | timedOut => simp [compile_manim_animation, henv, hq, hs,
            resultExclusive]
        | completed rc out err =>
          by_cases hrc : rc = 0
          · simp only [compile_manim_animation, henv, hq, hs, hrc]
            split
            · simp [resultExclusive]
            · split <;> simp [resultExclusive]
          · simp [compile_manim_animation, henv, hq, hs, hrc, resultExclusive]
  · intro code cls q env
    cases henv : env.exc with
    | some m => simp [compile_manim_animation_inline, henv, resultExclusive]
    | none =>
      cases hs : env.subproc with
      | timedOut => simp [compile_manim_animation_inline, henv, hs,
          resultExclusive]
      | completed rc out err =>
        by_cases hrc : rc = 0
        · simp only [compile_manim_animation_inline, henv, hs, hrc]
          split
          · simp [resultExclusive]
          · split <;> simp [resultExclusive]
        · simp [compile_manim_animation_inline, henv, hs, hrc, resultExclusive]
  · intro urls b td env
    cases henv : env.exc with
    | some m => simp [merge_scene_videos, henv, resultExclusive]
    | none =>
      match urls with
      | [] => simp [merge_scene_videos, henv, resultExclusive]
      | [url] => simp [merge_scene_videos, henv, resultExclusive]
      | u :: v :: rest =>
        cases hs : env.subproc with
        | timedOut => simp [merge_scene_videos, henv, hs, resultExclusive]
        | completed rc out err =>
          by_cases hrc : rc = 0 <;> by_cases ho : env.outputExists <;>
            simp [merge_scene_videos, henv, hs, hrc, ho, resultExclusive]

/-- Witness for C2 at a concrete input (`resultExclusive` carries
implications as hypotheses). -/
theorem C2_exactly_one_of_bytes_or_error_witness :
    resultExclusive (compile_manim_animation "code" "Scene" "low_quality"
      { tempDir := "/tmp/t", exc := none, subproc := .completed 1 "o" "e" }).1 :=
  C2_exactly_one_of_bytes_or_error.1 "code" "Scene" "low_quality" _

/-- The concrete environment refuting claim C3 on the inline render
pipeline: the subprocess succeeds, the workspace holds one produced file,
and that file matches neither glob. -/
def c3Env : RenderEnv :=
  { tempDir := "/tmp/w", exc := none, subproc := .completed 0 "" "",
    files := [("/tmp/w/media/leftover.txt", [])] }

/-- Claim C3 (counterexample): on the inline render pipeline — the one the
compile web endpoint runs — a successful subprocess with no artifact found
yields the fixed message `"Video file not found after compilation"`, which
does not enumerate (or even mention) the file actually produced. -/
theorem C3_counterexample :
    (compile_manim_animation_inline "code" "Scene" "low_quality" c3Env).1.success
      = false ∧
    (compile_manim_animation_inline "code" "Scene" "low_quality" c3Env).1.error
      = some "Video file not found after compilation" ∧
    occursIn "/tmp/w/media/leftover.txt".data
      "Video file not found after compilation".data = false := by
  refine ⟨by decide, by decide, by decide⟩

/-- Claim C3 (amended): when the renderer subprocess succeeds but neither
glob finds a file, the batch render pipeline returns a failure whose error
message enumerates (contains the path of) every file actually produced; the
inline render pipeline instead returns the fixed message
`"Video file not found after compilation"` without enumeration. -/
theorem C3_amended_not_found_enumeration :
    (∀ code cls q env (rc : Int) out err,
      env.exc = none → q ≠ "" → env.subproc = .completed rc out err → rc = 0 →
      globBase env.files "output.mp4" = [] →
      globBase env.files (cls ++ ".mp4") = [] →
      (compile_manim_animation code cls q env).1.success = false ∧
      (compile_manim_animation code cls q env).1.error =
        some ("Video file not found. Files created:\n" ++
          joinStrings "\n" (env.files.map (·.1))) ∧
      ∀ p ∈ env.files.map (·.1),
        occursIn p.data ("Video file not found. Files created:\n" ++
          joinStrings "\n" (env.files.map (·.1))).data = true) ∧
    (∀ code cls q env (rc : Int) out err,
      env.exc = none → env.subproc = .completed rc out err → rc = 0 →
      globBase env.files "output.mp4" = [] →
      globBase env.files (cls ++ ".mp4") = [] →
      (compile_manim_animation_inline code cls q env).1.success = false ∧
      (compile_manim_animation_inline code cls q env).1.error =
        some "Video file not found after compilation") := by
  constructor
  · intro code cls q env rc out err hexc hq hs hrc hg1 hg2
    obtain ⟨c, t, hd⟩ : ∃ c t, q.data = c :: t := by
      cases hdq : q.data with
      | nil => exact absurd (string_eq_empty_of_data_nil hdq) hq
      | cons c t => exact ⟨c, t, rfl⟩
    have hflag : ∃ f, batchQualityFlag q = some f := by
      unfold batchQualityFlag
      rw [hd]
      exact ⟨_, rfl⟩
    obtain ⟨f, hf⟩ := hflag
    refine ⟨?_, ?_, ?_⟩
    · simp [compile_manim_animation, hexc, hf, hs, hrc, hg1, hg2]
    · simp [compile_manim_animation, hexc, hf, hs, hrc, hg1, hg2]
    · intro p hp
      rw [String.data_append]
      exact occursIn_append_left _ _ _
        (occursIn_join "\n" (env.files.map (·.1)) p hp)
  · intro code cls q env rc out err hexc hs hrc hg1 hg2
    constructor <;>
      simp [compile_manim_animation_inline, hexc, hs, hrc, hg1, hg2]

/-- Witness for the amended C3 at a concrete input. -/
theorem C3_amended_not_found_enumeration_witness :
    (compile_manim_animation "code" "Scene" "low_quality"
      { tempDir := "/tmp/w", exc := none, subproc := .completed 0 "" "",
        files := [("/tmp/w/media/leftover.txt", [])] }).1.error =
      some ("Video file not found. Files created:\n" ++
        joinStrings "\n" ["/tmp/w/media/leftover.txt"]) := by
  have h := (C3_amended_not_found_enumeration.1 "code" "Scene" "low_quality"
    { tempDir := "/tmp/w", exc := none, subproc := .completed 0 "" "",
      files := [("/tmp/w/media/leftover.txt", [])] } 0 "" "" rfl (by decide)
    rfl rfl (by decide) (by decide)).2.1
  simpa using h

/-- Claim C8: the web adaptation is applied only to successful results with
a truthy `video_bytes` value; when applied it moves the bytes into the
base64 sibling field and leaves every other field untouched, and decoding
the encoded field reproduces the original bytes exactly. -/
theorem C8_web_adaptation_roundtrip :
    (∀ r : ResultDict, r.success = false → webAdapt r = r) ∧
    (∀ r : ResultDict, r.video_bytes = none → webAdapt r = r) ∧
    (∀ (r : ResultDict) (bs : Bytes), r.success = true →
      r.video_bytes = some bs → bs ≠ [] →
      webAdapt r = { r with video_bytes := none,
                            video_bytes_base64 := some (b64encode bs) }) ∧
    (∀ bs : Bytes, (∀ b ∈ bs, b < 256) → b64decode (b64encode bs) = some bs) := by
  refine ⟨?_, ?_, ?_, ?_⟩
  · intro r h
    simp [webAdapt, h]
  · intro r h
    cases hr : r.success <;> simp [webAdapt, hr, h]
  · intro r bs h1 h2 h3
    match bs, h3 with
    | b :: rest, _ => simp [webAdapt, h1, h2]
  · exact b64_roundTrip

/-- Witness for C8 at a concrete input. -/
theorem C8_web_adaptation_roundtrip_witness :
    webAdapt { success := true, video_bytes := some [77, 1, 255],
               logs := some "L" } =
      { success := true, video_bytes := none, logs := some "L",
        video_bytes_base64 := some (b64encode [77, 1, 255]) } ∧
    b64decode (b64encode [77, 1, 255]) = some [77, 1, 255] :=
  ⟨C8_web_adaptation_roundtrip.2.2.1 _ [77, 1, 255] rfl rfl (by decide),
   C8_web_adaptation_roundtrip.2.2.2 [77, 1, 255] (by decide)⟩

end Claiss
